import Mathlib

/-!
Verification of `src/system_health_monitor.py` (class `SystemHealthMonitor`).

Shallow embedding conventions:
- Python float percentages and derived quantities are modelled as rationals.
- A dictionary with a fixed key set is a structure; a dictionary with dynamic
  keys (disk mount points, network interfaces) is an association list kept in
  insertion order, matching Python dict iteration order.
- Each getter catches exceptions of the underlying OS query; the query outcome
  is therefore an explicit `Except String` input, and the getter maps a raised
  exception to the error-marker dictionary the except-branch builds.
- A Python value that may raise `KeyError` on dictionary lookup is modelled by
  `Option`: `none` is the raised `KeyError`.
-/

/-- Result of one metric-category getter: either the data dictionary, or the
error-marker dictionary (a dict holding only the key `error` with a message)
produced by the except-branch of that getter. -/
inductive MetricResult (α : Type) where
  | ok : α → MetricResult α
  | err : String → MetricResult α
deriving Repr, DecidableEq

/-- Round-half-to-even on rationals, mirroring Python `round` tie behaviour on
exactly representable inputs. -/
def roundHalfEven (x : ℚ) : ℤ :=
  let f := x.floor
  if x - f < 1/2 then f
  else if 1/2 < x - f then f + 1
  else if f % 2 = 0 then f else f + 1

/-- Python `round(x, 2)`. -/
def round2 (x : ℚ) : ℚ := (roundHalfEven (x * 100) : ℚ) / 100

/-- Python `round(b / (1024**3), 2)`, converting a byte count to gigabytes. -/
def bytesToGb (b : ℕ) : ℚ := round2 ((b : ℚ) / 1024 ^ 3)

/-- Raw data behind `get_system_info`: the `os.uname` fields, the formatted
boot time string, and the two epoch readings used for the uptime. -/
structure SystemRaw where
  nodename : String
  system : String
  machine : String
  boot_time_formatted : String
  boot_time_epoch : ℚ
  now_epoch : ℚ
deriving Repr, DecidableEq

/-- The dictionary built by a successful `get_system_info`. -/
structure SystemInfo where
  hostname : String
  platform : String
  architecture : String
  boot_time : String
  uptime_hours : ℚ
deriving Repr, DecidableEq

/-- `SystemHealthMonitor.get_system_info`. -/
def get_system_info (raw : Except String SystemRaw) : MetricResult SystemInfo :=
  match raw with
  | .ok r =>
      .ok { hostname := r.nodename
            platform := r.system
            architecture := r.machine
            boot_time := r.boot_time_formatted
            uptime_hours := round2 ((r.now_epoch - r.boot_time_epoch) / 3600) }
  | .error e => .err ("Failed to get system info: " ++ e)

/-- Raw data behind `get_cpu_info`. `cpu_freq_current` is `none` when
`psutil.cpu_freq()` returns `None`; `load_average` is `none` when the host has
no `getloadavg` (the code then stores the literal string `N/A`). -/
structure CpuRaw where
  cpu_percent : ℚ
  cpu_count_logical : Option ℕ
  cpu_count_physical : Option ℕ
  cpu_freq_current : Option ℚ
  load_average : Option (ℚ × ℚ × ℚ)
deriving Repr, DecidableEq

/-- The dictionary built by a successful `get_cpu_info`; `none` in the two
optional fields models the literal `N/A` entry. -/
structure CpuInfo where
  cpu_percent : ℚ
  cpu_count_logical : Option ℕ
  cpu_count_physical : Option ℕ
  cpu_frequency_mhz : Option ℚ
  load_average : Option (ℚ × ℚ × ℚ)
deriving Repr, DecidableEq

/-- `SystemHealthMonitor.get_cpu_info`. -/
def get_cpu_info (raw : Except String CpuRaw) : MetricResult CpuInfo :=
  match raw with
  | .ok r =>
      .ok { cpu_percent := r.cpu_percent
            cpu_count_logical := r.cpu_count_logical
            cpu_count_physical := r.cpu_count_physical
            cpu_frequency_mhz := r.cpu_freq_current.map round2
            load_average := r.load_average }
  | .error e => .err ("Failed to get CPU info: " ++ e)

/-- Raw data behind `get_memory_info`: `psutil.virtual_memory()` and
`psutil.swap_memory()` fields (byte counts and percents). -/
structure MemRaw where
  total : ℕ
  available : ℕ
  used : ℕ
  percent : ℚ
  swap_total : ℕ
  swap_used : ℕ
  swap_percent : ℚ
deriving Repr, DecidableEq

/-- The dictionary built by a successful `get_memory_info`. -/
structure MemInfo where
  memory_total_gb : ℚ
  memory_available_gb : ℚ
  memory_used_gb : ℚ
  memory_percent : ℚ
  swap_total_gb : ℚ
  swap_used_gb : ℚ
  swap_percent : ℚ
deriving Repr, DecidableEq

/-- `SystemHealthMonitor.get_memory_info`. -/
def get_memory_info (raw : Except String MemRaw) : MetricResult MemInfo :=
  match raw with
  | .ok r =>
      .ok { memory_total_gb := bytesToGb r.total
            memory_available_gb := bytesToGb r.available
            memory_used_gb := bytesToGb r.used
            memory_percent := r.percent
            swap_total_gb := bytesToGb r.swap_total
            swap_used_gb := bytesToGb r.swap_used
            swap_percent := r.swap_percent }
  | .error e => .err ("Failed to get memory info: " ++ e)

/-- `psutil.disk_usage` result (byte counts). -/
structure DiskUsage where
  total : ℕ
  used : ℕ
  free : ℕ
deriving Repr, DecidableEq

/-- Outcome of the per-partition `psutil.disk_usage(partition.mountpoint)`
call: success, a raised `PermissionError` (the only exception the loop body
catches), or any other raised exception with its message. -/
inductive UsageResult where
  | ok : DiskUsage → UsageResult
  | permissionError : UsageResult
  | otherError : String → UsageResult
deriving Repr, DecidableEq

/-- One entry of `psutil.disk_partitions()` together with the outcome its
usage lookup would have. -/
structure PartitionRaw where
  mountpoint : String
  device : String
  fstype : String
  usage : UsageResult
deriving Repr, DecidableEq

/-- The per-mount-point dictionary built inside `get_disk_info`. -/
structure DiskEntry where
  device : String
  filesystem : String
  total_gb : ℚ
  used_gb : ℚ
  free_gb : ℚ
  percent : ℚ
deriving Repr, DecidableEq

/-- Builds one `disk_info[partition.mountpoint]` entry; only reached when
`usage.total` is nonzero (otherwise the division raises first). -/
def mkDiskEntry (p : PartitionRaw) (u : DiskUsage) : DiskEntry :=
  { device := p.device
    filesystem := p.fstype
    total_gb := bytesToGb u.total
    used_gb := bytesToGb u.used
    free_gb := bytesToGb u.free
    percent := round2 (((u.used : ℚ) / (u.total : ℚ)) * 100) }

/-- The partition loop of `get_disk_info`: a `PermissionError` skips the
partition; any other usage exception, including the `ZeroDivisionError` from a
zero total, escapes the loop and is caught only by the outer except-branch. -/
def diskLoop : List PartitionRaw → Except String (List (String × DiskEntry))
  | [] => .ok []
  | p :: ps =>
      match p.usage with
      | .ok u =>
          if u.total = 0 then .error "division by zero"
          else
            match diskLoop ps with
            | .ok rest => .ok ((p.mountpoint, mkDiskEntry p u) :: rest)
            | .error e => .error e
      | .permissionError => diskLoop ps
      | .otherError e => .error e

/-- `SystemHealthMonitor.get_disk_info`. -/
def get_disk_info (raw : Except String (List PartitionRaw)) :
    MetricResult (List (String × DiskEntry)) :=
  match raw with
  | .ok parts =>
      match diskLoop parts with
      | .ok l => .ok l
      | .error e => .err ("Failed to get disk info: " ++ e)
  | .error e => .err ("Failed to get disk info: " ++ e)

/-- One `psutil.net_io_counters(pernic=True)` entry. -/
structure NetStatsRaw where
  bytes_sent : ℕ
  bytes_recv : ℕ
  packets_sent : ℕ
  packets_recv : ℕ
  errin : ℕ
  errout : ℕ
deriving Repr, DecidableEq

/-- The per-interface dictionary built by `get_network_info`. -/
structure NetInfo where
  bytes_sent : ℕ
  bytes_recv : ℕ
  packets_sent : ℕ
  packets_recv : ℕ
  errors_in : ℕ
  errors_out : ℕ
deriving Repr, DecidableEq

/-- `SystemHealthMonitor.get_network_info`. -/
def get_network_info (raw : Except String (List (String × NetStatsRaw))) :
    MetricResult (List (String × NetInfo)) :=
  match raw with
  | .ok stats =>
      .ok (stats.map fun s =>
        (s.1, { bytes_sent := s.2.bytes_sent
                bytes_recv := s.2.bytes_recv
                packets_sent := s.2.packets_sent
                packets_recv := s.2.packets_recv
                errors_in := s.2.errin
                errors_out := s.2.errout }))
  | .error e => .err ("Failed to get network info: " ++ e)

/-- The `proc.info` dictionary requested by `process_iter`; `none` in a
percent field models a `None` value. -/
structure ProcInfo where
  pid : ℕ
  name : String
  cpu_percent : Option ℚ
  memory_percent : Option ℚ
deriving Repr, DecidableEq

/-- One iteration outcome of the `process_iter` loop: either the process info,
or one of the two exceptions whose handler skips the entry. -/
inductive ProcEntry where
  | ok : ProcInfo → ProcEntry
  | noSuchProcess : ProcEntry
  | accessDenied : ProcEntry
deriving Repr, DecidableEq

/-- The entry kept (or not) by the enumeration loop body. -/
def toProcInfo : ProcEntry → Option ProcInfo
  | .ok i => some i
  | .noSuchProcess => none
  | .accessDenied => none

/-- The `processes` list accumulated by the enumeration loop. -/
def okInfos (entries : List ProcEntry) : List ProcInfo := entries.filterMap toProcInfo

/-- Sort key `lambda x: x['cpu_percent'] or 0`. -/
def cpuSortKey (p : ProcInfo) : ℚ := p.cpu_percent.getD 0

/-- Sort key `lambda x: x['memory_percent'] or 0`. -/
def memSortKey (p : ProcInfo) : ℚ := p.memory_percent.getD 0

/-- Stable insertion of `a` in front of the first element whose key is not
greater than `key a`, used to model one step of Python `sorted` with
`reverse=True` (stable, descending by key). -/
def insertDesc {α : Type} (key : α → ℚ) (a : α) : List α → List α
  | [] => [a]
  | b :: bs => if key b ≤ key a then a :: b :: bs else b :: insertDesc key a bs

/-- Python `sorted(l, key=key, reverse=True)`: descending by key, stable
(elements with equal keys keep their input order). -/
def sortDesc {α : Type} (key : α → ℚ) : List α → List α
  | [] => []
  | x :: xs => insertDesc key x (sortDesc key xs)

/-- The dictionary built by a successful `get_process_info`. -/
structure ProcessInfo where
  total_processes : ℕ
  top_cpu_processes : List ProcInfo
  top_memory_processes : List ProcInfo
deriving Repr, DecidableEq

/-- `SystemHealthMonitor.get_process_info`. -/
def get_process_info (top_n : ℕ) (raw : Except String (List ProcEntry)) :
    MetricResult ProcessInfo :=
  match raw with
  | .ok entries =>
      let processes := okInfos entries
      .ok { total_processes := processes.length
            top_cpu_processes := (sortDesc cpuSortKey processes).take top_n
            top_memory_processes := (sortDesc memSortKey processes).take top_n }
  | .error e => .err ("Failed to get process info: " ++ e)

/-- The `health_data` dictionary as built by `collect_all_metrics` before the
`alerts` key is added. -/
structure HealthData where
  timestamp : String
  system_info : MetricResult SystemInfo
  cpu_info : MetricResult CpuInfo
  memory_info : MetricResult MemInfo
  disk_info : MetricResult (List (String × DiskEntry))
  network_info : MetricResult (List (String × NetInfo))
  process_info : MetricResult ProcessInfo
deriving Repr, DecidableEq

/-- One alert string appended by `check_alerts`; the constructor arguments are
exactly the values interpolated into the corresponding f-string: observed
percent and threshold, plus the mount point for a disk alert. -/
inductive Alert where
  | cpu : ℚ → ℚ → Alert
  | memory : ℚ → ℚ → Alert
  | disk : String → ℚ → ℚ → Alert
deriving Repr, DecidableEq

/-- The `self.alert_thresholds` dictionary, restricted to the three recognized
keys; a `none` field is an absent key, whose lookup raises `KeyError`. -/
structure ThresholdDict where
  cpu_percent : Option ℚ
  memory_percent : Option ℚ
  disk_percent : Option ℚ
deriving Repr, DecidableEq

/-- The default dictionary of `__init__`. -/
def defaultThresholds : ThresholdDict :=
  { cpu_percent := some 80, memory_percent := some 85, disk_percent := some 90 }

/-- Python truthiness of the threshold dictionary: an empty dict is falsy. -/
def thresholdDictIsEmpty (d : ThresholdDict) : Bool :=
  d.cpu_percent.isNone && d.memory_percent.isNone && d.disk_percent.isNone

/-- `SystemHealthMonitor.__init__`:
`self.alert_thresholds = alert_thresholds or { defaults }`. The fallback fires
only when the argument is `None` or falsy (an empty dict). -/
def initMonitor (alert_thresholds : Option ThresholdDict) : ThresholdDict :=
  match alert_thresholds with
  | none => defaultThresholds
  | some d => if thresholdDictIsEmpty d then defaultThresholds else d

/-- The CPU block of `check_alerts`: when `cpu_percent` is present in
`cpu_info`, the threshold lookup runs (raising `KeyError`, i.e. `none`, when
the key is absent) and an alert is appended on strict excess. -/
def cpuCheck (th : ThresholdDict) : MetricResult CpuInfo → Option (List Alert)
  | .ok c =>
      match th.cpu_percent with
      | some t => some (if c.cpu_percent > t then [Alert.cpu c.cpu_percent t] else [])
      | none => none
  | .err _ => some []

/-- The memory block of `check_alerts`. -/
def memCheck (th : ThresholdDict) : MetricResult MemInfo → Option (List Alert)
  | .ok m =>
      match th.memory_percent with
      | some t => some (if m.memory_percent > t then [Alert.memory m.memory_percent t] else [])
      | none => none
  | .err _ => some []

/-- The disk loop of `check_alerts`: every iterated entry performs the
threshold lookup and appends one alert on strict excess, in iteration order. -/
def diskCheckLoop (th : ThresholdDict) : List (String × DiskEntry) → Option (List Alert)
  | [] => some []
  | e :: rest =>
      match th.disk_percent with
      | some t =>
          match diskCheckLoop th rest with
          | some tail =>
              some (if e.2.percent > t then Alert.disk e.1 e.2.percent t :: tail else tail)
          | none => none
      | none => none

/-- The disk block of `check_alerts`: on an error marker the only item of the
dict fails the inner `isinstance(disk_data, dict)` test, so nothing happens. -/
def diskCheck (th : ThresholdDict) : MetricResult (List (String × DiskEntry)) →
    Option (List Alert)
  | .ok l => diskCheckLoop th l
  | .err _ => some []

/-- `SystemHealthMonitor.check_alerts`; `none` is a `KeyError` escaping the
method when a needed threshold key is absent. -/
def check_alerts (th : ThresholdDict) (hd : HealthData) : Option (List Alert) :=
  match cpuCheck th hd.cpu_info with
  | none => none
  | some a =>
      match memCheck th hd.memory_info with
      | none => none
      | some m =>
          match diskCheck th hd.disk_info with
          | none => none
          | some d => some (a ++ m ++ d)

/-- One read `health_data['cpu_info']`, returning the value and the dictionary
state after the access. -/
def readCpuInfo (hd : HealthData) : MetricResult CpuInfo × HealthData := (hd.cpu_info, hd)

/-- One read `health_data['memory_info']`. -/
def readMemoryInfo (hd : HealthData) : MetricResult MemInfo × HealthData :=
  (hd.memory_info, hd)

/-- One read `health_data['disk_info']`. -/
def readDiskInfo (hd : HealthData) :
    MetricResult (List (String × DiskEntry)) × HealthData := (hd.disk_info, hd)

/-- `check_alerts` with the `health_data` dictionary threaded as explicit
state through each access the method performs on it (the method only ever
reads). -/
def checkAlertsSt (th : ThresholdDict) (hd : HealthData) :
    Option (List Alert) × HealthData :=
  let rc := readCpuInfo hd
  let rm := readMemoryInfo rc.2
  let rd := readDiskInfo rm.2
  (match cpuCheck th rc.1 with
   | none => none
   | some a =>
       match memCheck th rm.1 with
       | none => none
       | some m =>
           match diskCheck th rd.1 with
           | none => none
           | some d => some (a ++ m ++ d), rd.2)

/-- The independent raw query outcomes feeding one `collect_all_metrics`
call, plus the formatted collection timestamp. -/
structure RawInputs where
  timestamp : String
  system : Except String SystemRaw
  cpu : Except String CpuRaw
  memory : Except String MemRaw
  disk : Except String (List PartitionRaw)
  network : Except String (List (String × NetStatsRaw))
  processes : Except String (List ProcEntry)

/-- The dictionary literal of `collect_all_metrics` (before `alerts`). -/
def buildHealthData (raw : RawInputs) : HealthData :=
  { timestamp := raw.timestamp
    system_info := get_system_info raw.system
    cpu_info := get_cpu_info raw.cpu
    memory_info := get_memory_info raw.memory
    disk_info := get_disk_info raw.disk
    network_info := get_network_info raw.network
    process_info := get_process_info 5 raw.processes }

/-- The full `health_data` dictionary returned by `collect_all_metrics`. -/
structure Snapshot where
  data : HealthData
  alerts : List Alert
deriving Repr, DecidableEq

/-- `SystemHealthMonitor.collect_all_metrics`; `none` is the uncaught
`KeyError` from `check_alerts` escaping the method. -/
def collect_all_metrics (th : ThresholdDict) (raw : RawInputs) : Option Snapshot :=
  let hd := buildHealthData raw
  match check_alerts th hd with
  | some as => some { data := hd, alerts := as }
  | none => none

/-- Modelled from the spec (AlertEvaluator, CPU rule), for comparison with
`check_alerts`: one CPU alert iff the percent is present and strictly above
the threshold. -/
def specCpuAlerts (tc : ℚ) : MetricResult CpuInfo → List Alert
  | .ok c => if c.cpu_percent > tc then [Alert.cpu c.cpu_percent tc] else []
  | .err _ => []

/-- Modelled from the spec (AlertEvaluator, memory rule), for comparison with
`check_alerts`. -/
def specMemAlerts (tm : ℚ) : MetricResult MemInfo → List Alert
  | .ok m => if m.memory_percent > tm then [Alert.memory m.memory_percent tm] else []
  | .err _ => []

/-- Modelled from the spec (AlertEvaluator, disk rule), for comparison with
`check_alerts`: one alert per offending entry, in iteration order. -/
def specDiskList (td : ℚ) (l : List (String × DiskEntry)) : List Alert :=
  l.filterMap fun e =>
    if e.2.percent > td then some (Alert.disk e.1 e.2.percent td) else none

/-- Modelled from the spec (AlertEvaluator, disk rule on a whole category
value), for comparison with `check_alerts`. -/
def specDiskAlerts (td : ℚ) : MetricResult (List (String × DiskEntry)) → List Alert
  | .ok l => specDiskList td l
  | .err _ => []

/-- Is this alert a disk alert for mount point `mp`? -/
def isDiskAlertFor (mp : String) : Alert → Bool
  | .disk mp2 _ _ => mp2 == mp
  | .cpu _ _ => false
  | .memory _ _ => false

/-- Does this disk entry belong to mount point `mp` and strictly exceed the
threshold `td`? -/
def offendsFor (mp : String) (td : ℚ) (e : String × DiskEntry) : Bool :=
  e.1 == mp && td < e.2.percent

/-- Did this partition's usage lookup either succeed with a nonzero total or
fail with the one exception the loop body catches? -/
def goodUsage (p : PartitionRaw) : Bool :=
  match p.usage with
  | .ok u => u.total != 0
  | .permissionError => true
  | .otherError _ => false

/-- The disk entry a partition contributes when its usage lookup succeeds,
`none` when it is dropped. -/
def partitionEntry (p : PartitionRaw) : Option (String × DiskEntry) :=
  match p.usage with
  | .ok u => if u.total = 0 then none else some (p.mountpoint, mkDiskEntry p u)
  | .permissionError => none
  | .otherError _ => none

/-- Is this enumeration entry a successfully read process? -/
def isOkEntry : ProcEntry → Bool
  | .ok _ => true
  | .noSuchProcess => false
  | .accessDenied => false

/-- Descending-sortedness with respect to a key. -/
def SortedDescBy {α : Type} (key : α → ℚ) (l : List α) : Prop :=
  l.Pairwise fun a b => key b ≤ key a

/-- The entries the disk loop of `check_alerts` iterates: the mapping itself
when the category succeeded, nothing alert-relevant on an error marker. -/
def diskEntriesOf : MetricResult (List (String × DiskEntry)) → List (String × DiskEntry)
  | .ok l => l
  | .err _ => []

/-- A category field is either valid data or an explicit error marker. -/
def isOkOrErr {α : Type} (m : MetricResult α) : Prop :=
  (∃ v, m = MetricResult.ok v) ∨ (∃ e, m = MetricResult.err e)

/-- Test snapshot of the spec scenario: cpu 92.3, memory 60.0, disk `/` at
95.5 and `/data` at 50.0. -/
def scenarioData : HealthData :=
  { timestamp := "2026-10-12 00:00:00"
    system_info := .err "Failed to get system info: unavailable"
    cpu_info := .ok { cpu_percent := 92.3
                      cpu_count_logical := some 8
                      cpu_count_physical := some 4
                      cpu_frequency_mhz := some 2400
                      load_average := none }
    memory_info := .ok { memory_total_gb := 16
                         memory_available_gb := 8
                         memory_used_gb := 8
                         memory_percent := 60.0
                         swap_total_gb := 2
                         swap_used_gb := 0
                         swap_percent := 0 }
    disk_info := .ok [("/", { device := "/dev/sda1", filesystem := "ext4"
                              total_gb := 100, used_gb := 95.5, free_gb := 4.5
                              percent := 95.5 }),
                      ("/data", { device := "/dev/sdb1", filesystem := "xfs"
                                  total_gb := 200, used_gb := 100, free_gb := 100
                                  percent := 50.0 })]
    network_info := .ok []
    process_info := .ok { total_processes := 0
                          top_cpu_processes := []
                          top_memory_processes := [] } }

/-- Test inputs for a collection in which every raw query fails except the
memory query. -/
def rawMemoryOnly : RawInputs :=
  { timestamp := "2026-10-12 00:00:00"
    system := .error "sys down"
    cpu := .error "cpu down"
    memory := .ok { total := 0, available := 0, used := 0, percent := 42
                    swap_total := 0, swap_used := 0, swap_percent := 0 }
    disk := .error "disk down"
    network := .error "net down"
    processes := .error "proc down" }

/-- Test partitions: two readable mounts around one permission-denied mount. -/
def partsGood : List PartitionRaw :=
  [{ mountpoint := "/", device := "/dev/sda1", fstype := "ext4"
     usage := .ok { total := 100, used := 40, free := 60 } },
   { mountpoint := "/locked", device := "/dev/sdb1", fstype := "ext4"
     usage := .permissionError },
   { mountpoint := "/data", device := "/dev/sdc1", fstype := "xfs"
     usage := .ok { total := 200, used := 50, free := 150 } }]

/-- Test partitions: a readable mount followed by a mount whose usage lookup
raises an exception other than `PermissionError`. -/
def partsBad : List PartitionRaw :=
  [{ mountpoint := "/", device := "/dev/sda1", fstype := "ext4"
     usage := .ok { total := 100, used := 40, free := 60 } },
   { mountpoint := "/flaky", device := "/dev/sdd1", fstype := "ext4"
     usage := .otherError "boom" }]

/-- Test process enumerated first: pid 2, cpu 5 percent. -/
def procA : ProcInfo := { pid := 2, name := "b", cpu_percent := some 5, memory_percent := some 1 }

/-- Test process enumerated second: pid 1, cpu 5 percent (a cpu tie with
`procA`). -/
def procB : ProcInfo := { pid := 1, name := "a", cpu_percent := some 5, memory_percent := some 2 }

lemma cpuCheck_complete (tc : ℚ) (tm td : Option ℚ) (c : MetricResult CpuInfo) :
    cpuCheck { cpu_percent := some tc, memory_percent := tm, disk_percent := td } c =
      some (specCpuAlerts tc c) := by
  cases c <;> rfl

lemma memCheck_complete (tm : ℚ) (tc td : Option ℚ) (m : MetricResult MemInfo) :
    memCheck { cpu_percent := tc, memory_percent := some tm, disk_percent := td } m =
      some (specMemAlerts tm m) := by
  cases m <;> rfl

lemma diskCheckLoop_complete (td : ℚ) (tc tm : Option ℚ) (l : List (String × DiskEntry)) :
    diskCheckLoop { cpu_percent := tc, memory_percent := tm, disk_percent := some td } l =
      some (specDiskList td l) := by
  induction l with
  | nil => rfl
  | cons e rest ih =>
      simp only [diskCheckLoop, ih, specDiskList, List.filterMap_cons]
      by_cases h : e.2.percent > td
      · simp [h, specDiskList]
      · simp [h, specDiskList]

lemma diskCheck_complete (td : ℚ) (tc tm : Option ℚ) (d : MetricResult (List (String × DiskEntry))) :
    diskCheck { cpu_percent := tc, memory_percent := tm, disk_percent := some td } d =
      some (specDiskAlerts td d) := by
  cases d with
  | ok l => simpa [diskCheck, specDiskAlerts] using diskCheckLoop_complete td tc tm l
  | err e => rfl

lemma check_alerts_complete (tc tm td : ℚ) (hd : HealthData) :
    check_alerts { cpu_percent := some tc, memory_percent := some tm, disk_percent := some td } hd =
      some (specCpuAlerts tc hd.cpu_info ++ specMemAlerts tm hd.memory_info ++
            specDiskAlerts td hd.disk_info) := by
  simp [check_alerts, cpuCheck_complete, memCheck_complete, diskCheck_complete]

lemma specCpuAlerts_shape (tc : ℚ) (c : MetricResult CpuInfo) :
    ∀ a ∈ specCpuAlerts tc c, ∃ v, a = Alert.cpu v tc := by
  intro a ha
  cases c with
  | ok info =>
      simp only [specCpuAlerts] at ha
      by_cases h : info.cpu_percent > tc
      · rw [if_pos h] at ha
        simp only [List.mem_singleton] at ha
        exact ⟨info.cpu_percent, ha⟩
      · rw [if_neg h] at ha
        exact absurd ha (List.not_mem_nil a)
  | err e => exact absurd ha (List.not_mem_nil a)

lemma specMemAlerts_shape (tm : ℚ) (m : MetricResult MemInfo) :
    ∀ a ∈ specMemAlerts tm m, ∃ v, a = Alert.memory v tm := by
  intro a ha
  cases m with
  | ok info =>
      simp only [specMemAlerts] at ha
      by_cases h : info.memory_percent > tm
      · rw [if_pos h] at ha
        simp only [List.mem_singleton] at ha
        exact ⟨info.memory_percent, ha⟩
      · rw [if_neg h] at ha
        exact absurd ha (List.not_mem_nil a)
  | err e => exact absurd ha (List.not_mem_nil a)

lemma specDiskAlerts_shape (td : ℚ) (d : MetricResult (List (String × DiskEntry))) :
    ∀ a ∈ specDiskAlerts td d, ∃ mp v, a = Alert.disk mp v td := by
  intro a ha
  cases d with
  | ok l =>
      simp only [specDiskAlerts, specDiskList, List.mem_filterMap] at ha
      obtain ⟨e, _, he⟩ := ha
      by_cases h : e.2.percent > td
      · rw [if_pos h] at he
        exact ⟨e.1, e.2.percent, (Option.some_inj.mp he).symm⟩
      · rw [if_neg h] at he
        exact absurd he (Option.noConfusion)
  | err e => exact absurd ha (List.not_mem_nil a)

lemma cpu_mem_specCpuAlerts (tc : ℚ) (c : MetricResult CpuInfo) :
    (∃ v t, Alert.cpu v t ∈ specCpuAlerts tc c) ↔
      ∃ info, c = MetricResult.ok info ∧ info.cpu_percent > tc := by
  constructor
  · rintro ⟨v, t, hmem⟩
    cases c with
    | ok info =>
        simp only [specCpuAlerts] at hmem
        by_cases h : info.cpu_percent > tc
        · exact ⟨info, rfl, h⟩
        · rw [if_neg h] at hmem
          exact absurd hmem (List.not_mem_nil _)
    | err e => exact absurd hmem (List.not_mem_nil _)
  · rintro ⟨info, rfl, h⟩
    exact ⟨info.cpu_percent, tc, by simp [specCpuAlerts, h]⟩

lemma mem_mem_specMemAlerts (tm : ℚ) (m : MetricResult MemInfo) :
    (∃ v t, Alert.memory v t ∈ specMemAlerts tm m) ↔
      ∃ info, m = MetricResult.ok info ∧ info.memory_percent > tm := by
  constructor
  · rintro ⟨v, t, hmem⟩
    cases m with
    | ok info =>
        simp only [specMemAlerts] at hmem
        by_cases h : info.memory_percent > tm
        · exact ⟨info, rfl, h⟩
        · rw [if_neg h] at hmem
          exact absurd hmem (List.not_mem_nil _)
    | err e => exact absurd hmem (List.not_mem_nil _)
  · rintro ⟨info, rfl, h⟩
    exact ⟨info.memory_percent, tm, by simp [specMemAlerts, h]⟩

lemma disk_mem_specDiskAlerts (td : ℚ) (dm : MetricResult (List (String × DiskEntry)))
    (mp : String) :
    (∃ v t, Alert.disk mp v t ∈ specDiskAlerts td dm) ↔
      ∃ l d, dm = MetricResult.ok l ∧ (mp, d) ∈ l ∧ d.percent > td := by
  constructor
  · rintro ⟨v, t, hmem⟩
    cases dm with
    | ok l =>
        simp only [specDiskAlerts, specDiskList, List.mem_filterMap] at hmem
        obtain ⟨e, hel, he⟩ := hmem
        by_cases h : e.2.percent > td
        · rw [if_pos h] at he
          have he2 := Option.some_inj.mp he
          refine ⟨l, e.2, rfl, ?_, h⟩
          have h1 : e.1 = mp := by
            cases he2 with
            | refl => rfl
          rw [← h1]
          exact hel
        · rw [if_neg h] at he
          exact absurd he (Option.noConfusion)
    | err e => exact absurd hmem (List.not_mem_nil _)
  · rintro ⟨l, d, rfl, hmem, h⟩
    refine ⟨d.percent, td, ?_⟩
    simp only [specDiskAlerts, specDiskList, List.mem_filterMap]
    exact ⟨(mp, d), hmem, by simp [h]⟩

lemma not_disk_mem_cpu_mem (tc tm : ℚ) (hd : HealthData) (mp : String) (v t : ℚ) :
    Alert.disk mp v t ∉ specCpuAlerts tc hd.cpu_info ∧
    Alert.disk mp v t ∉ specMemAlerts tm hd.memory_info := by
  constructor
  · intro h
    obtain ⟨w, hw⟩ := specCpuAlerts_shape tc hd.cpu_info _ h
    exact Alert.noConfusion hw
  · intro h
    obtain ⟨w, hw⟩ := specMemAlerts_shape tm hd.memory_info _ h
    exact Alert.noConfusion hw

/-- Claim C1: for every snapshot and every threshold set, `check_alerts`
emits a cpu alert iff the cpu field holds a `cpu_percent` value strictly
greater than the cpu threshold, likewise for memory, and a disk alert for a
mount point iff that mount point's percent strictly exceeds the disk
threshold; equality with the threshold never alerts (the conditions are
strict inequalities), and an error-marker category yields no alert and no
failure (the method still returns a list). -/
theorem check_alerts_alert_iff_strictly_above (tc tm td : ℚ) (hd : HealthData) :
    ∃ as, check_alerts { cpu_percent := some tc, memory_percent := some tm,
                         disk_percent := some td } hd = some as ∧
      ((∃ v t, Alert.cpu v t ∈ as) ↔
        ∃ c, hd.cpu_info = MetricResult.ok c ∧ c.cpu_percent > tc) ∧
      ((∃ v t, Alert.memory v t ∈ as) ↔
        ∃ m, hd.memory_info = MetricResult.ok m ∧ m.memory_percent > tm) ∧
      (∀ mp, (∃ v t, Alert.disk mp v t ∈ as) ↔
        ∃ l d, hd.disk_info = MetricResult.ok l ∧ (mp, d) ∈ l ∧ d.percent > td) := by
  refine ⟨_, check_alerts_complete tc tm td hd, ?_, ?_, ?_⟩
  · rw [← cpu_mem_specCpuAlerts tc hd.cpu_info]
    constructor
    · rintro ⟨v, t, hmem⟩
      rcases List.mem_append.mp hmem with h1 | h2
      · rcases List.mem_append.mp h1 with hc | hm
        · exact ⟨v, t, hc⟩
        · obtain ⟨w, hw⟩ := specMemAlerts_shape tm hd.memory_info _ hm
          exact absurd hw (Alert.noConfusion)
      · obtain ⟨mp, w, hw⟩ := specDiskAlerts_shape td hd.disk_info _ h2
        exact absurd hw (Alert.noConfusion)
    · rintro ⟨v, t, hmem⟩
      exact ⟨v, t, List.mem_append.mpr (Or.inl (List.mem_append.mpr (Or.inl hmem)))⟩
  · rw [← mem_mem_specMemAlerts tm hd.memory_info]
    constructor
    · rintro ⟨v, t, hmem⟩
      rcases List.mem_append.mp hmem with h1 | h2
      · rcases List.mem_append.mp h1 with hc | hm
        · obtain ⟨w, hw⟩ := specCpuAlerts_shape tc hd.cpu_info _ hc
          exact absurd hw (Alert.noConfusion)
        · exact ⟨v, t, hm⟩
      · obtain ⟨mp, w, hw⟩ := specDiskAlerts_shape td hd.disk_info _ h2
        exact absurd hw (Alert.noConfusion)
    · rintro ⟨v, t, hmem⟩
      exact ⟨v, t, List.mem_append.mpr (Or.inl (List.mem_append.mpr (Or.inr hmem)))⟩
  · intro mp
    rw [← disk_mem_specDiskAlerts td hd.disk_info mp]
    constructor
    · rintro ⟨v, t, hmem⟩
      rcases List.mem_append.mp hmem with h1 | h2
      · rcases List.mem_append.mp h1 with hc | hm
        · exact absurd hc (not_disk_mem_cpu_mem tc tm hd mp v t).1
        · exact absurd hm (not_disk_mem_cpu_mem tc tm hd mp v t).2
      · exact ⟨v, t, h2⟩
    · rintro ⟨v, t, hmem⟩
      exact ⟨v, t, List.mem_append.mpr (Or.inr hmem)⟩

lemma countP_specDiskList (mp : String) (td : ℚ) (l : List (String × DiskEntry)) :
    (specDiskList td l).countP (isDiskAlertFor mp) = l.countP (offendsFor mp td) := by
  induction l with
  | nil => rfl
  | cons e rest ih =>
      simp only [specDiskList, List.filterMap_cons] at *
      by_cases h : e.2.percent > td
      · rw [if_pos h]
        simp only [List.countP_cons, ih, isDiskAlertFor, offendsFor]
        have hd : decide (td < e.2.percent) = true := decide_eq_true h
        simp [hd]
      · rw [if_neg h]
        simp only [List.countP_cons, ih, offendsFor]
        have hd : decide (td < e.2.percent) = false := decide_eq_false h
        simp [hd]

lemma countP_specCpuAlerts_disk (mp : String) (tc : ℚ) (c : MetricResult CpuInfo) :
    (specCpuAlerts tc c).countP (isDiskAlertFor mp) = 0 := by
  rw [List.countP_eq_zero]
  intro a ha
  obtain ⟨v, hv⟩ := specCpuAlerts_shape tc c a ha
  subst hv
  simp [isDiskAlertFor]

lemma countP_specMemAlerts_disk (mp : String) (tm : ℚ) (m : MetricResult MemInfo) :
    (specMemAlerts tm m).countP (isDiskAlertFor mp) = 0 := by
  rw [List.countP_eq_zero]
  intro a ha
  obtain ⟨v, hv⟩ := specMemAlerts_shape tm m a ha
  subst hv
  simp [isDiskAlertFor]

/-- Claim C3: for every snapshot and (complete) threshold set, the alert list
is the cpu part, then the memory part, then the disk part, the disk part
holding one alert per offending entry in the disk mapping's iteration order;
in particular each mount point key contributes exactly as many disk alerts as
it has offending entries (exactly one under dict key uniqueness). -/
theorem check_alerts_category_order (tc tm td : ℚ) (hd : HealthData) :
    check_alerts { cpu_percent := some tc, memory_percent := some tm,
                   disk_percent := some td } hd =
      some (specCpuAlerts tc hd.cpu_info ++ specMemAlerts tm hd.memory_info ++
            specDiskAlerts td hd.disk_info) ∧
    ∀ mp, (specCpuAlerts tc hd.cpu_info ++ specMemAlerts tm hd.memory_info ++
            specDiskAlerts td hd.disk_info).countP (isDiskAlertFor mp) =
          (diskEntriesOf hd.disk_info).countP (offendsFor mp td) := by
  refine ⟨check_alerts_complete tc tm td hd, ?_⟩
  intro mp
  rw [List.countP_append, List.countP_append, countP_specCpuAlerts_disk,
      countP_specMemAlerts_disk]
  cases hdi : hd.disk_info with
  | ok l => simp [specDiskAlerts, diskEntriesOf, countP_specDiskList]
  | err e => simp [specDiskAlerts, diskEntriesOf]

/-- Claim C8: with thresholds cpu=80, memory=85, disk=90 and a snapshot where
cpu percent is 92.3, memory percent is 60.0, and disk holds `/` at 95.5 and
`/data` at 50.0, `check_alerts` returns exactly a CPU alert followed by a
disk alert for `/`, and no memory alert. -/
theorem check_alerts_scenario :
    check_alerts defaultThresholds scenarioData =
      some [Alert.cpu 92.3 80, Alert.disk "/" 95.5 90] := by
  norm_num [check_alerts, cpuCheck, memCheck, diskCheck, diskCheckLoop,
            defaultThresholds, scenarioData]

/-- Claim C9: constructing the monitor with an empty threshold mapping yields
exactly the default thresholds, identically to passing no mapping at all. -/
theorem init_empty_mapping_defaults :
    initMonitor (some { cpu_percent := none, memory_percent := none, disk_percent := none }) =
      defaultThresholds ∧
    initMonitor none = defaultThresholds :=
  ⟨rfl, rfl⟩

/-- Claim C6, counterexample: a non-empty partial threshold mapping does not
fall back to the documented default for its unspecified categories — with
only `cpu_percent` given, the stored `memory_percent` key stays absent
instead of defaulting to 85. -/
theorem init_partial_mapping_counterexample :
    (initMonitor (some { cpu_percent := some 50, memory_percent := none,
                         disk_percent := none })).memory_percent = none ∧
    (initMonitor (some { cpu_percent := some 50, memory_percent := none,
                         disk_percent := none })).memory_percent ≠ some 85 :=
  ⟨rfl, by simp [initMonitor, thresholdDictIsEmpty]⟩

/-- Claim C6, amended: the constructor falls back to the documented defaults
(cpu=80, memory=85, disk=90) only when the given mapping is absent or falsy
(empty); a non-empty mapping is stored exactly as given, with no per-category
fallback for its unspecified keys. (The stored set is never mutated
afterwards: every method of the embedding is a pure function of it.) -/
theorem init_defaults_only_when_falsy :
    initMonitor none = defaultThresholds ∧
    (∀ d, thresholdDictIsEmpty d = true → initMonitor (some d) = defaultThresholds) ∧
    (∀ d, thresholdDictIsEmpty d = false → initMonitor (some d) = d) := by
  refine ⟨rfl, ?_, ?_⟩ <;> intro d h <;> simp [initMonitor, h]

/-- Witness for the amended C6 theorem at a concrete partial mapping. -/
theorem init_defaults_only_when_falsy_witness :
    thresholdDictIsEmpty { cpu_percent := some 50, memory_percent := none,
                           disk_percent := none } = false ∧
    initMonitor (some { cpu_percent := some 50, memory_percent := none,
                        disk_percent := none }) =
      { cpu_percent := some 50, memory_percent := none, disk_percent := none } :=
  ⟨rfl, init_defaults_only_when_falsy.2.2 _ rfl⟩

/-- Claim C2, counterexample: on a monitor built from a non-empty partial
threshold mapping, `collect_all_metrics` itself fails — with the memory query
succeeding and the `memory_percent` threshold key absent, the threshold
lookup inside `check_alerts` raises and the collection returns nothing. -/
theorem collect_all_metrics_partial_thresholds_fail :
    collect_all_metrics
      (initMonitor (some { cpu_percent := some 50, memory_percent := none,
                           disk_percent := none }))
      rawMemoryOnly = none :=
  rfl

/-- Claim C2, amended: whenever the monitor's threshold mapping defines all
three recognized keys (as the default and CLI-built mappings do),
`collect_all_metrics` never fails and returns a snapshot carrying the
timestamp, all six category fields — each exactly the corresponding getter's
result, hence either valid data or an explicit error marker — plus the alerts
computed from those fields. -/
lemma metricResult_ok_or_err {α : Type} (m : MetricResult α) : isOkOrErr m := by
  cases m with
  | ok v => exact Or.inl ⟨v, rfl⟩
  | err e => exact Or.inr ⟨e, rfl⟩

theorem collect_all_metrics_complete_thresholds_total (tc tm td : ℚ) (raw : RawInputs) :
    ∃ s, collect_all_metrics { cpu_percent := some tc, memory_percent := some tm,
                               disk_percent := some td } raw = some s ∧
      s.data.timestamp = raw.timestamp ∧
      s.data.system_info = get_system_info raw.system ∧
      s.data.cpu_info = get_cpu_info raw.cpu ∧
      s.data.memory_info = get_memory_info raw.memory ∧
      s.data.disk_info = get_disk_info raw.disk ∧
      s.data.network_info = get_network_info raw.network ∧
      s.data.process_info = get_process_info 5 raw.processes ∧
      isOkOrErr s.data.system_info ∧ isOkOrErr s.data.cpu_info ∧
      isOkOrErr s.data.memory_info ∧ isOkOrErr s.data.disk_info ∧
      isOkOrErr s.data.network_info ∧ isOkOrErr s.data.process_info ∧
      check_alerts { cpu_percent := some tc, memory_percent := some tm,
                     disk_percent := some td } s.data = some s.alerts := by
  have hcomplete := check_alerts_complete tc tm td (buildHealthData raw)
  refine ⟨{ data := buildHealthData raw,
            alerts := specCpuAlerts tc (buildHealthData raw).cpu_info ++
                      specMemAlerts tm (buildHealthData raw).memory_info ++
                      specDiskAlerts td (buildHealthData raw).disk_info }, ?_,
          rfl, rfl, rfl, rfl, rfl, rfl, rfl,
          metricResult_ok_or_err _, metricResult_ok_or_err _, metricResult_ok_or_err _,
          metricResult_ok_or_err _, metricResult_ok_or_err _, metricResult_ok_or_err _,
          hcomplete⟩
  simp [collect_all_metrics, hcomplete]

/-- Claim C10: `check_alerts` is read-only on its input — with the health
data threaded as explicit state through every access the method makes, the
state coming out equals the dictionary that went in, and the alerts are the
same list `check_alerts` computes. -/
theorem check_alerts_readonly (th : ThresholdDict) (hd : HealthData) :
    checkAlertsSt th hd = (check_alerts th hd, hd) :=
  rfl

lemma diskLoop_good (parts : List PartitionRaw)
    (h : ∀ p ∈ parts, goodUsage p = true) :
    diskLoop parts = Except.ok (parts.filterMap partitionEntry) := by
  induction parts with
  | nil => rfl
  | cons p ps ih =>
      have hp := h p (List.mem_cons_self p ps)
      have hps : ∀ q ∈ ps, goodUsage q = true :=
        fun q hq => h q (List.mem_cons_of_mem p hq)
      cases hu : p.usage with
      | ok u =>
          have hnz : u.total ≠ 0 := by
            simpa [goodUsage, hu] using hp
          simp [diskLoop, hu, hnz, ih hps, List.filterMap_cons, partitionEntry]
      | permissionError =>
          simp [diskLoop, hu, ih hps, List.filterMap_cons, partitionEntry]
      | otherError e =>
          simp [goodUsage, hu] at hp

/-- Claim C4, amended: when every partition's usage lookup either succeeds
(with a nonzero total) or fails with `PermissionError` — the one exception
the loop body catches — `get_disk_info` drops exactly the permission-denied
partitions and keeps every other partition's entry, in enumeration order. A
usage failure of any other kind escapes the loop and turns the whole disk
category into an error marker, so the category can error even though
partition enumeration succeeded; it also errors when enumeration itself
fails. -/
theorem get_disk_info_drops_only_permission_denied (parts : List PartitionRaw)
    (h : ∀ p ∈ parts, goodUsage p = true) :
    get_disk_info (Except.ok parts) = MetricResult.ok (parts.filterMap partitionEntry) := by
  simp [get_disk_info, diskLoop_good parts h]

/-- Witness for the amended C4 theorem: two readable partitions around one
permission-denied partition; the denied one is dropped, the other two stay. -/
theorem get_disk_info_drops_only_permission_denied_witness :
    (∀ p ∈ partsGood, goodUsage p = true) ∧
    get_disk_info (Except.ok partsGood) =
      MetricResult.ok (partsGood.filterMap partitionEntry) :=
  ⟨by decide, get_disk_info_drops_only_permission_denied partsGood (by decide)⟩

/-- Claim C4, counterexample: one readable partition followed by one whose
usage lookup raises an exception other than `PermissionError`; partition
enumeration succeeded, yet the whole disk category becomes an error marker
and the readable partition's entry is gone. -/
theorem get_disk_info_other_usage_error_counterexample :
    get_disk_info (Except.ok partsBad) =
      MetricResult.err "Failed to get disk info: boom" :=
  rfl

lemma insertDesc_perm {α : Type} (key : α → ℚ) (a : α) (l : List α) :
    (insertDesc key a l).Perm (a :: l) := by
  induction l with
  | nil => exact List.Perm.refl _
  | cons b bs ih =>
      by_cases h : key b ≤ key a
      · simp [insertDesc, h]
      · rw [insertDesc, if_neg h]
        exact (ih.cons b).trans (List.Perm.swap a b bs)

lemma sortDesc_perm {α : Type} (key : α → ℚ) (l : List α) :
    (sortDesc key l).Perm l := by
  induction l with
  | nil => exact List.Perm.refl _
  | cons x xs ih =>
      exact (insertDesc_perm key x (sortDesc key xs)).trans (ih.cons x)

lemma insertDesc_sorted {α : Type} (key : α → ℚ) (a : α) (l : List α)
    (h : SortedDescBy key l) : SortedDescBy key (insertDesc key a l) := by
  induction l with
  | nil => simp [insertDesc, SortedDescBy]
  | cons b bs ih =>
      rw [SortedDescBy, List.pairwise_cons] at h
      by_cases hba : key b ≤ key a
      · rw [insertDesc, if_pos hba]
        refine List.Pairwise.cons ?_ (List.Pairwise.cons h.1 h.2)
        intro x hx
        rcases List.mem_cons.mp hx with hxb | hxbs
        · rw [hxb]; exact hba
        · exact le_trans (h.1 x hxbs) hba
      · rw [insertDesc, if_neg hba]
        have hab : key a ≤ key b := le_of_lt (lt_of_not_le hba)
        refine List.Pairwise.cons ?_ (ih h.2)
        intro x hx
        rcases List.mem_cons.mp ((insertDesc_perm key a bs).mem_iff.mp hx) with hxa | hxbs
        · rw [hxa]; exact hab
        · exact h.1 x hxbs

lemma sortDesc_sorted {α : Type} (key : α → ℚ) (l : List α) :
    SortedDescBy key (sortDesc key l) := by
  induction l with
  | nil => exact List.Pairwise.nil
  | cons x xs ih => exact insertDesc_sorted key x (sortDesc key xs) ih

lemma insertDesc_filter_key {α : Type} (key : α → ℚ) (a : α) (l : List α) (k : ℚ) :
    (insertDesc key a l).filter (fun x => key x == k) =
      if key a == k then a :: l.filter (fun x => key x == k)
      else l.filter (fun x => key x == k) := by
  induction l with
  | nil =>
      by_cases hak : key a = k
      · simp [insertDesc, List.filter, hak]
      · have hb : (key a == k) = false := beq_eq_false_iff_ne.mpr hak
        simp [insertDesc, List.filter, hb, hak]
  | cons b bs ih =>
      by_cases hba : key b ≤ key a
      · rw [insertDesc, if_pos hba]
        by_cases hak : key a = k
        · simp [List.filter_cons, hak]
        · simp [List.filter_cons, hak]
      · rw [insertDesc, if_neg hba]
        by_cases hak : key a = k
        · have hbk : ¬ key b = k := by
            intro hbk
            exact hba (le_of_eq (hbk.trans hak.symm))
          simp [List.filter_cons, hak, hbk, ih]
        · simp [List.filter_cons, hak, ih]

lemma sortDesc_filter_key {α : Type} (key : α → ℚ) (l : List α) (k : ℚ) :
    (sortDesc key l).filter (fun x => key x == k) = l.filter (fun x => key x == k) := by
  induction l with
  | nil => rfl
  | cons x xs ih =>
      rw [sortDesc, insertDesc_filter_key]
      by_cases hxk : key x = k
      · simp [List.filter_cons, hxk, ih]
      · simp [List.filter_cons, hxk, ih]

lemma okInfos_length_countP (entries : List ProcEntry) :
    (okInfos entries).length = entries.countP isOkEntry := by
  unfold okInfos
  induction entries with
  | nil => rfl
  | cons e rest ih =>
      cases e <;> simp [toProcInfo, isOkEntry, List.filterMap_cons,
                        List.countP_cons, ih]

lemma mem_okInfos (entries : List ProcEntry) (p : ProcInfo)
    (h : p ∈ okInfos entries) : ProcEntry.ok p ∈ entries := by
  obtain ⟨e, he, ht⟩ := List.mem_filterMap.mp h
  cases e with
  | ok i =>
      cases Option.some_inj.mp ht
      exact he
  | noSuchProcess => exact absurd ht Option.noConfusion
  | accessDenied => exact absurd ht Option.noConfusion

lemma take_sortDesc_length {α : Type} (key : α → ℚ) (l : List α) (n : ℕ) :
    ((sortDesc key l).take n).length = min n l.length := by
  rw [List.length_take, (sortDesc_perm key l).length_eq]

/-- Claim C5, amended: the top-CPU and top-memory lists returned by
`get_process_info` are each the `top_n`-prefix of a stable descending sort of
the successfully read processes by the respective usage percent with a
missing or null percent treated as zero: each list is sorted descending by
its key, has `min top_n (number of valid processes)` entries (so exactly
`top_n` when at least that many valid processes exist, fewer otherwise), and
ties are broken by enumeration order — the sort is stable, preserving the
input order within every equal-key class — not by process ID ascending. -/
theorem get_process_info_top_lists (n : ℕ) (entries : List ProcEntry) :
    ∃ info, get_process_info n (Except.ok entries) = MetricResult.ok info ∧
      info.top_cpu_processes = (sortDesc cpuSortKey (okInfos entries)).take n ∧
      info.top_memory_processes = (sortDesc memSortKey (okInfos entries)).take n ∧
      SortedDescBy cpuSortKey info.top_cpu_processes ∧
      SortedDescBy memSortKey info.top_memory_processes ∧
      info.top_cpu_processes.length = min n (okInfos entries).length ∧
      info.top_memory_processes.length = min n (okInfos entries).length ∧
      (∀ k : ℚ, (sortDesc cpuSortKey (okInfos entries)).filter (fun p => cpuSortKey p == k) =
        (okInfos entries).filter (fun p => cpuSortKey p == k)) ∧
      (∀ k : ℚ, (sortDesc memSortKey (okInfos entries)).filter (fun p => memSortKey p == k) =
        (okInfos entries).filter (fun p => memSortKey p == k)) := by
  refine ⟨_, rfl, rfl, rfl, ?_, ?_, ?_, ?_, ?_, ?_⟩
  · exact List.Pairwise.sublist (List.take_sublist n _) (sortDesc_sorted cpuSortKey _)
  · exact List.Pairwise.sublist (List.take_sublist n _) (sortDesc_sorted memSortKey _)
  · exact take_sortDesc_length cpuSortKey _ n
  · exact take_sortDesc_length memSortKey _ n
  · exact sortDesc_filter_key cpuSortKey _
  · exact sortDesc_filter_key memSortKey _

/-- Claim C5, counterexample: two successfully read processes tie on CPU
percent; the first-enumerated one (pid 2) stays ahead of the
second-enumerated one (pid 1) in the top-CPU list, so ties are not broken by
process ID ascending (that would give pid 1 first). -/
theorem get_process_info_tie_order_counterexample :
    get_process_info 5 (Except.ok [ProcEntry.ok procA, ProcEntry.ok procB]) =
      MetricResult.ok { total_processes := 2
                        top_cpu_processes := [procA, procB]
                        top_memory_processes := [procB, procA] } :=
  rfl

/-- Claim C7: `get_process_info` reports `total_processes` as the number of
successfully read enumeration entries, and neither top list ever contains an
entry that was inaccessible or vanished during enumeration — every listed
process comes from a successfully read entry. -/
theorem get_process_info_counts_and_top_lists_accessible (n : ℕ)
    (entries : List ProcEntry) :
    ∃ info, get_process_info n (Except.ok entries) = MetricResult.ok info ∧
      info.total_processes = entries.countP isOkEntry ∧
      (∀ p ∈ info.top_cpu_processes, ProcEntry.ok p ∈ entries) ∧
      (∀ p ∈ info.top_memory_processes, ProcEntry.ok p ∈ entries) := by
  refine ⟨_, rfl, okInfos_length_countP entries, ?_, ?_⟩ <;>
    intro p hp <;>
    apply mem_okInfos entries p
  · exact (sortDesc_perm cpuSortKey (okInfos entries)).mem_iff.mp
      (List.mem_of_mem_take hp)
  · exact (sortDesc_perm memSortKey (okInfos entries)).mem_iff.mp
      (List.mem_of_mem_take hp)
